import Mathlib

/-!
Verification of the CSI-volume resource logic of the terraform-provider-nomad
excerpt: the volumespec parser (JSON envelope unwrapping and the empty-record
guard), the register/deregister/read reconciler operations, the customize-diff
planner, and the evaluation/deployment completion poller.

Machine-level strings and JSON values are embedded shallowly: a raw textual
input is modelled as `Option Json` (`none` stands for text that is not
syntactically valid JSON); Go's `json.Unmarshal` into `map[string]RawMessage`
and into the `api.CSIVolume` struct are embedded as total Lean functions on
`Json`; the remote API client is a record of response functions, and each
resource operation additionally returns the list of remote calls it issued.
-/

set_option autoImplicit false

namespace NomadCSI

/-- JSON values, with objects as association lists in source order
(Go decodes duplicate keys with last-occurrence-wins, which `lookupLast`
below reproduces). -/
inductive Json where
  | null
  | bool (b : Bool)
  | num (n : Int)
  | str (s : String)
  | arr (elems : List Json)
  | obj (fields : List (String × Json))

/-- The fields of `api.CSIVolume` that the excerpt reads or writes.
`MountOptions` is a pointer in Go; only its nil-ness is observable here,
so it is modelled as a `Bool` (`true` = non-nil). -/
structure CSIVolume where
  ID : String
  Name : String
  «Namespace» : String
  ExternalID : String
  PluginID : String
  AccessMode : String
  AttachmentMode : String
  MountOptions : Bool
  ModifyIndex : Nat
  deriving DecidableEq, Repr

/-- The zero value `api.CSIVolume\x7b\x7d` that `reflect.DeepEqual` compares
against in `parseVolumespec`. -/
def CSIVolume.empty : CSIVolume :=
  { ID := "", Name := "", «Namespace» := "", ExternalID := "", PluginID := ""
    AccessMode := "", AttachmentMode := "", MountOptions := false, ModifyIndex := 0 }

/-- Last-occurrence-wins lookup in a JSON object's field list, matching Go's
map construction from duplicate keys. -/
def lookupLast (k : String) (fields : List (String × Json)) : Option Json :=
  fields.foldl (fun acc p => if p.1 = k then some p.2 else acc) none

/-- Go `json.Unmarshal` of a value into `map[string]json.RawMessage`:
an object yields its fields, `null` yields the nil map (no bindings),
anything else is a type error. -/
def unmarshalRootObject : Json → Except String (List (String × Json))
  | .obj fields => .ok fields
  | .null => .ok []
  | _ => .error "json: cannot unmarshal value into Go value of type map[string]json.RawMessage"

/-- Decoding one string-typed struct field: absent or `null` leaves the zero
value, a JSON string is taken verbatim, anything else is a type error. -/
def decodeStringField (fields : List (String × Json)) (k : String) : Except String String :=
  match lookupLast k fields with
  | none => .ok ""
  | some .null => .ok ""
  | some (.str s) => .ok s
  | some _ => .error ("json: cannot unmarshal value into Go struct field CSIVolume." ++ k)

/-- Decoding the `uint64` field `ModifyIndex`: absent or `null` leaves `0`,
a non-negative JSON number is taken, anything else (including a negative
number) is a type error. -/
def decodeUint64Field (fields : List (String × Json)) (k : String) : Except String Nat :=
  match lookupLast k fields with
  | none => .ok 0
  | some .null => .ok 0
  | some (.num n) => if n < 0 then .error ("json: cannot unmarshal value into Go struct field CSIVolume." ++ k) else .ok n.toNat
  | some _ => .error ("json: cannot unmarshal value into Go struct field CSIVolume." ++ k)

/-- Decoding the pointer field `MountOptions`: absent or `null` gives a nil
pointer, an object gives a non-nil pointer, anything else is a type error. -/
def decodeMountOptionsField (fields : List (String × Json)) : Except String Bool :=
  match lookupLast "MountOptions" fields with
  | none => .ok false
  | some .null => .ok false
  | some (.obj _) => .ok true
  | some _ => .error "json: cannot unmarshal value into Go struct field CSIVolume.MountOptions"

/-- Go `json.Unmarshal` of a value into an `api.CSIVolume` struct: `null`
leaves the zero value, an object decodes field-wise (unknown keys ignored),
anything else is a type error. -/
def decodeCSIVolume : Json → Except String CSIVolume
  | .null => .ok CSIVolume.empty
  | .obj fields => do
    let id ← decodeStringField fields "ID"
    let name ← decodeStringField fields "Name"
    let ns ← decodeStringField fields "Namespace"
    let externalId ← decodeStringField fields "ExternalID"
    let pluginId ← decodeStringField fields "PluginID"
    let accessMode ← decodeStringField fields "AccessMode"
    let attachmentMode ← decodeStringField fields "AttachmentMode"
    let mountOptions ← decodeMountOptionsField fields
    let modifyIndex ← decodeUint64Field fields "ModifyIndex"
    .ok { ID := id, Name := name, «Namespace» := ns, ExternalID := externalId
          PluginID := pluginId, AccessMode := accessMode, AttachmentMode := attachmentMode
          MountOptions := mountOptions, ModifyIndex := modifyIndex }
  | _ => .error "json: cannot unmarshal value into Go value of type api.CSIVolume"

/-- A raw textual input: `none` is text that is not syntactically valid JSON,
`some j` is text whose JSON parse is `j`. -/
abbrev RawText := Option Json

/-- `parseJSONVolumespec`: partially decode the input to detect a top-level
`"Job"` envelope; if present, decode the envelope's payload as the volume,
otherwise decode the whole input. Returns the Go `(volume, err)` pair, with
`none` in the first component standing for a nil pointer. -/
def parseJSONVolumespec (raw : RawText) : Option CSIVolume × Option String :=
  match raw with
  | none => (none, some "invalid character: input is not syntactically valid JSON")
  | some j =>
    match unmarshalRootObject j with
    | .error e => (none, some e)
    | .ok root =>
      let jobBytes := match lookupLast "Job" root with
        | some jb => jb
        | none => j
      match decodeCSIVolume jobBytes with
      | .error e => (none, some e)
      | .ok volume => (some volume, none)

/-- `parseVolumespec`: dispatch on the `is_json` flag (the non-JSON branch
always fails), wrap decode errors, and reject a nil or structurally empty
decoded volume. Returns the Go `(volume, err)` pair. -/
def parseVolumespec (raw : RawText) (is_json : Bool) : Option CSIVolume × Option String :=
  if is_json then
    match parseJSONVolumespec raw with
    | (_, some e) => (none, some ("error parsing jobspec: " ++ e))
    | (some volume, none) =>
      if volume = CSIVolume.empty then
        (none, some "error parsing volumespec: input JSON is not a valid Nomad volumespec")
      else
        (some volume, none)
    | (none, none) =>
      (none, some "error parsing volumespec: input JSON is not a valid Nomad volumespec")
  else
    (none, some "error parsing jobspec: no json string")

/-- Whether the first character list starts the second one. -/
def subAtFront : List Char → List Char → Bool
  | [], _ => true
  | _ :: _, [] => false
  | a :: as, b :: bs => a = b && subAtFront as bs

/-- Whether the first character list occurs contiguously in the second. -/
def subSomewhere (sub : List Char) : List Char → Bool
  | [] => subAtFront sub []
  | c :: cs => subAtFront sub (c :: cs) || subSomewhere sub cs

/-- Go `strings.Contains s sub`: `sub` occurs as a substring of `s` (the
empty substring occurs everywhere). -/
def strContains (s sub : String) : Bool :=
  subSomewhere sub.data s.data

/-- The write metadata that the remote `Register` call returns (the excerpt
discards it with `_`). -/
structure WriteMeta where
  LastIndex : Nat
  deriving DecidableEq, Repr

/-- One remote API call issued by a resource operation, with its arguments. -/
inductive RemoteCall where
  | register (volume : CSIVolume) («namespace» : String)
  | deregister (id : String) («namespace» : String)
  | info (id : String) («namespace» : String)
  deriving DecidableEq, Repr

/-- The remote API client, as a record of response functions: what `Register`,
`Info` and `Deregister` return for given arguments. Errors are their message
strings. -/
structure RemoteClient where
  registerResult : CSIVolume → String → Except String WriteMeta
  infoResult : String → String → Except String CSIVolume
  deregisterResult : String → String → Option String

/-- The slice of `schema.ResourceData` the excerpt touches: the resource id
(`d.Id()` / `d.SetId`), the attributes written by `d.Set`, and the
configuration attributes read by `d.Get`. `attr_id` is the `"id"` attribute
written by `d.Set("id", ...)` in the read path, kept separate from the
`d.SetId` identity. -/
structure ResourceState where
  id : String
  attr_id : String
  name : String
  «namespace» : String
  modify_index : String
  external_id : String
  plugin_id : String
  access_mode : String
  attachment_mode : String
  mount_options : Bool
  volumespec : String
  json : Bool
  deregister_on_destroy : Bool
  deriving DecidableEq, Repr

/-- Marker for the runtime panic that Go would raise if a nil volume pointer
were dereferenced; the theorems below show the branch is unreachable. -/
def nilPointerPanic : String :=
  "panic: runtime error: invalid memory address or nil pointer dereference"

/-- `resourceCSIVolumeRead`: remote `Info` lookup with the namespace defaulted
to `"default"`; an error whose message contains `"404"` clears the id and
succeeds, any other error is wrapped and returned; on success the volume's
fields are materialized into the state. Returns the updated state, the Go
error, and the remote calls issued. -/
def resourceCSIVolumeRead (client : RemoteClient) (d : ResourceState) :
    ResourceState × Option String × List RemoteCall :=
  let ns := if d.«namespace» = "" then "default" else d.«namespace»
  match client.infoResult d.id ns with
  | .error e =>
    if strContains e "404" then
      ({ d with id := "" }, none, [.info d.id ns])
    else
      (d, some ("error checking for job: " ++ e), [.info d.id ns])
  | .ok volume =>
    ({ d with
        attr_id := volume.ID
        name := volume.Name
        external_id := volume.ExternalID
        plugin_id := volume.PluginID
        access_mode := volume.AccessMode
        attachment_mode := volume.AttachmentMode
        mount_options := volume.MountOptions
        «namespace» := volume.«Namespace»
        modify_index := if volume.ModifyIndex ≠ 0 then toString volume.ModifyIndex else "0" },
     none, [.info d.id ns])

/-- Outcome of the register operation: the final state, the Go error, the
remote calls issued, and whether Go's unguarded `volume.ID` dereference would
have hit a nil pointer (the theorems below show it never does). -/
structure RegisterOutcome where
  state : ResourceState
  err : Option String
  calls : List RemoteCall
  nilDeref : Bool
  deriving DecidableEq, Repr

/-- `resourceVolumeRegister`: parse the volumespec (the text-level JSON parse
is the abstract `jsonOfText`), send it to the remote `Register` scoped by the
`namespace` attribute, discard the write metadata, store the parsed volume's
id, name, namespace and modify index, then re-read via
`resourceCSIVolumeRead`. -/
def resourceVolumeRegister (client : RemoteClient) (jsonOfText : String → RawText)
    (d : ResourceState) : RegisterOutcome :=
  match parseVolumespec (jsonOfText d.volumespec) d.json with
  | (_, some e) => { state := d, err := some e, calls := [], nilDeref := false }
  | (none, none) => { state := d, err := some nilPointerPanic, calls := [], nilDeref := true }
  | (some volume, none) =>
    match client.registerResult volume d.«namespace» with
    | .error e =>
      { state := d, err := some ("error applying volumespec: " ++ e)
        calls := [.register volume d.«namespace»], nilDeref := false }
    | .ok _ =>
      let d1 := { d with
                  id := volume.ID
                  name := volume.Name
                  «namespace» := volume.«Namespace»
                  modify_index := toString volume.ModifyIndex }
      let r := resourceCSIVolumeRead client d1
      { state := r.1, err := r.2.1, calls := .register volume d.«namespace» :: r.2.2
        nilDeref := false }

/-- `resourceVolumeDeregister`: a no-op when `deregister_on_destroy` is false;
otherwise one remote `Deregister` call scoped by the namespace defaulted to
`"default"`, with a remote error wrapped and returned. -/
def resourceVolumeDeregister (client : RemoteClient) (d : ResourceState) :
    Option String × List RemoteCall :=
  if !d.deregister_on_destroy then
    (none, [])
  else
    let ns := if d.«namespace» = "" then "default" else d.«namespace»
    match client.deregisterResult d.id ns with
    | some e => (some ("error deregistering job: " ++ e), [.deregister d.id ns])
    | none => (none, [.deregister d.id ns])

/-- The slice of `schema.ResourceDiff` that `resourceVolumeCustomizeDiff`
reads: whether the new volumespec is known, the old/new raw texts from
`GetChange`, and the current (observed) attributes. -/
structure ResourceDiff where
  volumespecKnown : Bool
  oldSpecRaw : String
  newSpecRaw : String
  json : Bool
  «namespace» : String
  id : String
  deregister_on_id_change : Bool
  deriving DecidableEq, Repr

/-- The staged plan produced by the customize-diff: the fields marked
computed (`SetNewComputed`, in call order), the staged new values (`SetNew`),
the fields marked as forcing replacement (`ForceNew`), and the error. -/
structure DiffResult where
  computed : List String
  newValues : List (String × String)
  forced : List String
  err : Option String
  deriving DecidableEq, Repr

/-- `resourceVolumeCustomizeDiff`: unknown volumespec marks all computed
attributes unknown; unchanged raw text is a no-op; otherwise the new text is
parsed, the namespace defaulted to `"default"`, id and name staged, and the
identity-change policy applied: a namespace change forces the `namespace`
field new, else an id change forces `id` and `name` new only when
`deregister_on_id_change` is set; finally `modify_index` and
`allocation_ids` are marked computed. -/
def resourceVolumeCustomizeDiff (jsonOfText : String → RawText) (d : ResourceDiff) : DiffResult :=
  if !d.volumespecKnown then
    { computed := ["id", "modify_index", "namespace", "type", "name", "external_id",
                   "plugin_id", "access_mode", "attachment_mode", "mount_options"]
      newValues := [], forced := [], err := none }
  else if d.oldSpecRaw = d.newSpecRaw then
    { computed := [], newValues := [], forced := [], err := none }
  else
    match parseVolumespec (jsonOfText d.newSpecRaw) d.json with
    | (_, some e) => { computed := [], newValues := [], forced := [], err := some e }
    | (none, none) => { computed := [], newValues := [], forced := [], err := some nilPointerPanic }
    | (some volume0, none) =>
      let volume := if volume0.«Namespace» = "" then { volume0 with «Namespace» := "default" }
                    else volume0
      let staged : List (String × String) := [("id", volume.ID), ("name", volume.Name)]
      let r : DiffResult :=
        if d.«namespace» ≠ volume.«Namespace» then
          { computed := [], newValues := staged ++ [("namespace", volume.«Namespace»)],
            forced := ["namespace"], err := none }
        else if d.id ≠ volume.ID then
          if d.deregister_on_id_change then
            { computed := [], newValues := staged, forced := ["id", "name"], err := none }
          else
            { computed := [], newValues := staged, forced := [], err := none }
        else
          { computed := [], newValues := staged, forced := [], err := none }
      { r with computed := r.computed ++ ["modify_index", "allocation_ids"] }

/-- The fields of `api.Evaluation` read by the poller. -/
structure Evaluation where
  Status : String
  NextEval : String
  DeploymentID : String
  StatusDescription : String
  deriving DecidableEq, Repr

/-- The fields of `api.Deployment` read by the poller. -/
structure Deployment where
  ID : String
  Status : String
  StatusDescription : String
  deriving DecidableEq, Repr

/-- The remote responses the poller consumes: `Evaluations().Info` and
`Deployments().Info`. -/
structure PollClient where
  evalInfo : String → Except String Evaluation
  depInfo : String → Except String Deployment

/-- The closure state of `deploymentStateRefreshFunc`: its `evalId` while
`deploymentId` is still empty, or the captured `deploymentId` afterwards. -/
inductive PollerState where
  | monitoringEvaluation (evalId : String)
  | monitoringDeployment (deploymentId : String)
  deriving DecidableEq, Repr

/-- One invocation's outcome: the Go triple `(interface\x7b\x7d, string, error)`
(result object, state string, error) plus the closure state for the next
invocation. -/
structure PollStep where
  result : Option Deployment
  state : String
  err : Option String
  next : PollerState
  deriving DecidableEq, Repr

/-- One invocation of the closure returned by `deploymentStateRefreshFunc`. -/
def deploymentStateRefreshStep (client : PollClient) : PollerState → PollStep
  | .monitoringEvaluation evalId =>
    match client.evalInfo evalId with
    | .error e =>
      { result := none, state := "", err := some e, next := .monitoringEvaluation evalId }
    | .ok eval =>
      if eval.Status = "complete" then
        if eval.NextEval ≠ "" then
          { result := none, state := "monitoring_evaluation", err := none,
            next := .monitoringEvaluation eval.NextEval }
        else if eval.DeploymentID ≠ "" then
          { result := none, state := "monitoring_deployment", err := none,
            next := .monitoringDeployment eval.DeploymentID }
        else
          { result := none, state := "job_scheduled_without_deployment", err := none,
            next := .monitoringEvaluation evalId }
      else if eval.Status = "failed" ∨ eval.Status = "cancelled" then
        { result := none, state := "",
          err := some ("evaluation failed: " ++ eval.StatusDescription),
          next := .monitoringEvaluation evalId }
      else
        { result := none, state := "monitoring_evaluation", err := none,
          next := .monitoringEvaluation evalId }
  | .monitoringDeployment deploymentId =>
    match client.depInfo deploymentId with
    | .error e =>
      { result := none, state := "", err := some e, next := .monitoringDeployment deploymentId }
    | .ok deployment =>
      if deployment.Status = "successful" then
        { result := some deployment, state := "deployment_successful", err := none,
          next := .monitoringDeployment deploymentId }
      else if deployment.Status = "failed" ∨ deployment.Status = "cancelled" then
        { result := some deployment, state := "",
          err := some ("deployment \x27" ++ deployment.ID ++ "\x27 terminated with status \x27" ++
                       deployment.Status ++ "\x27: \x27" ++ deployment.StatusDescription ++ "\x27"),
          next := .monitoringDeployment deploymentId }
      else
        { result := some deployment, state := "monitoring_deployment", err := none,
          next := .monitoringDeployment deploymentId }

/-! Theorems. -/

/-- Helper: `parseVolumespec` either succeeds with a non-nil volume that is
not the empty record (the guard at the end of the function), or fails with a
nil volume and an error; the Go `(nil, nil)` outcome is impossible. -/
theorem parseVolumespec_shape (raw : RawText) (is_json : Bool) :
    (∃ v, parseVolumespec raw is_json = (some v, none) ∧ v ≠ CSIVolume.empty) ∨
    (∃ e, parseVolumespec raw is_json = (none, some e)) := by
  cases is_json with
  | false =>
    right
    exact ⟨"error parsing jobspec: no json string", by simp [parseVolumespec]⟩
  | true =>
    rcases hp : parseJSONVolumespec raw with ⟨vopt, eopt⟩
    cases eopt with
    | some e =>
      right
      exact ⟨"error parsing jobspec: " ++ e, by simp [parseVolumespec, hp]⟩
    | none =>
      cases vopt with
      | none =>
        right
        exact ⟨"error parsing volumespec: input JSON is not a valid Nomad volumespec",
          by simp [parseVolumespec, hp]⟩
      | some v =>
        by_cases hv : v = CSIVolume.empty
        · right
          exact ⟨"error parsing volumespec: input JSON is not a valid Nomad volumespec",
            by simp [parseVolumespec, hp, hv]⟩
        · left
          exact ⟨v, by simp [parseVolumespec, hp, hv], hv⟩

/-- C1 (counterexample): the claim that some native (non-JSON) input parses
successfully is false — with `is_json = false` the parser returns an error for
every input, before ever looking at the text. -/
theorem C1_counterexample :
    ¬ ∃ (raw : RawText) (v : CSIVolume), parseVolumespec raw false = (some v, none) := by
  rintro ⟨raw, v, h⟩
  simp [parseVolumespec] at h

/-- C1 (amended): the parser accepts only the JSON format. Every input with
the non-JSON flag fails with the fixed error `error parsing jobspec: no json
string`, and there exists a JSON-format input for which parse succeeds with
the corresponding structured record. -/
theorem C1_json_format_only :
    (∀ raw : RawText,
        parseVolumespec raw false = (none, some "error parsing jobspec: no json string")) ∧
    (∃ (raw : RawText) (v : CSIVolume), parseVolumespec raw true = (some v, none)) := by
  refine ⟨fun raw => by simp [parseVolumespec], ?_⟩
  exact ⟨some (.obj [("ID", .str "foo")]), { CSIVolume.empty with ID := "foo" }, by decide⟩

/-- C8: the empty JSON object input is rejected by the parser with a parse
error — it decodes to the structurally empty record, which the guard treats
as not a valid volumespec. -/
theorem C8_empty_object_rejected :
    parseVolumespec (some (.obj [])) true
      = (none, some "error parsing volumespec: input JSON is not a valid Nomad volumespec") := by
  decide

/-- C9 (counterexample): enveloping is not transparent for an inner record
that itself contains a top-level `"Job"` key. With the inner record
`j = obj [("Job", obj [("ID", "foo")])]`, parsing the enveloped input
`obj [("Job", j)]` unwraps only one level and decodes `j` itself as the
volume (its `"Job"` key is ignored as an unknown struct field, giving the
empty record), while parsing `j` directly unwraps its `"Job"` key and yields
the volume with id `"foo"` — the two results differ. -/
theorem C9_counterexample :
    parseJSONVolumespec (some (.obj [("Job", .obj [("Job", .obj [("ID", .str "foo")])])]))
      ≠ parseJSONVolumespec (some (.obj [("Job", .obj [("ID", .str "foo")])])) := by
  decide

/-- C9 (amended): for every inner JSON object whose field list has no
top-level `"Job"` key, parsing the enveloped input yields exactly the same
result as parsing the inner object directly; in particular the spec's
instance (inner record with a single `"ID": "foo"` field) holds, as the
witness below checks. -/
theorem C9_envelope_unwrapping (fields : List (String × Json))
    (h : lookupLast "Job" fields = none) :
    parseJSONVolumespec (some (.obj [("Job", .obj fields)]))
      = parseJSONVolumespec (some (.obj fields)) := by
  have hs : lookupLast "Job" [("Job", Json.obj fields)] = some (Json.obj fields) := by
    simp [lookupLast]
  simp [parseJSONVolumespec, unmarshalRootObject, hs, h]

/-- Witness for C9 (amended) at the spec's own instance. -/
theorem C9_envelope_unwrapping_witness :
    lookupLast "Job" [("ID", Json.str "foo")] = none ∧
    parseJSONVolumespec (some (.obj [("Job", .obj [("ID", Json.str "foo")])]))
      = parseJSONVolumespec (some (.obj [("ID", Json.str "foo")])) := by
  exact ⟨rfl, C9_envelope_unwrapping [("ID", Json.str "foo")] rfl⟩

/-- C10: whenever the parser returns without an error, the returned volume is
non-nil and differs from the all-default empty record; consequently the
register path never reaches the nil-pointer dereference. -/
theorem C10_parse_success_nonempty :
    (∀ (raw : RawText) (is_json : Bool),
        (parseVolumespec raw is_json).2 = none →
        ∃ v, (parseVolumespec raw is_json).1 = some v ∧ v ≠ CSIVolume.empty) ∧
    (∀ (client : RemoteClient) (jsonOfText : String → RawText) (d : ResourceState),
        (resourceVolumeRegister client jsonOfText d).nilDeref = false) := by
  constructor
  · intro raw is_json hnone
    rcases parseVolumespec_shape raw is_json with ⟨v, hv, hne⟩ | ⟨e, he⟩
    · exact ⟨v, by rw [hv], hne⟩
    · rw [he] at hnone
      simp at hnone
  · intro client jsonOfText d
    unfold resourceVolumeRegister
    rcases parseVolumespec_shape (jsonOfText d.volumespec) d.json with ⟨v, hv, _⟩ | ⟨e, he⟩
    · rw [hv]
      cases hr : client.registerResult v d.«namespace» with
      | error e => simp [hr]
      | ok m => simp [hr]
    · rw [he]

/-- Witness for C10 at a concrete JSON input. -/
theorem C10_witness :
    (parseVolumespec (some (Json.obj [("ID", Json.str "foo")])) true).2 = none ∧
    ∃ v, (parseVolumespec (some (Json.obj [("ID", Json.str "foo")])) true).1 = some v
          ∧ v ≠ CSIVolume.empty := by
  exact ⟨by decide, C10_parse_success_nonempty.1 (some (Json.obj [("ID", Json.str "foo")])) true
    (by decide)⟩

/-- Shared register behavior of the two clients in the C2 counterexample: it
always succeeds, and its response carries only write metadata — no volume
record. -/
def registerOk : CSIVolume → String → Except String WriteMeta :=
  fun _ _ => .ok { LastIndex := 7 }

/-- First client of the C2 counterexample: `Info` answers with a volume named
`from-read-a`. -/
def c2ClientA : RemoteClient :=
  { registerResult := registerOk
    infoResult := fun _ _ => .ok { CSIVolume.empty with ID := "v1", Name := "from-read-a" }
    deregisterResult := fun _ _ => none }

/-- Second client of the C2 counterexample: identical register behavior, but
`Info` answers with a volume named `from-read-b`. -/
def c2ClientB : RemoteClient :=
  { registerResult := registerOk
    infoResult := fun _ _ => .ok { CSIVolume.empty with ID := "v1", Name := "from-read-b" }
    deregisterResult := fun _ _ => none }

/-- Starting state for the C2 scenarios. -/
def c2State : ResourceState :=
  { id := "", attr_id := "", name := "", «namespace» := "", modify_index := ""
    external_id := "", plugin_id := "", access_mode := "", attachment_mode := ""
    mount_options := false, volumespec := "spec", json := true, deregister_on_destroy := true }

/-- Text-level JSON parse used in the C2 scenarios: the volumespec text
denotes the object with a single `"ID": "v1"` field. -/
def c2JsonOfText : String → RawText := fun _ => some (.obj [("ID", .str "v1")])

/-- C2 (counterexample): the register response does not become the new
observed record. The two clients share the very same successful register
behavior (whose response is write metadata containing no record at all), yet
the stored states after apply differ — they are populated from the follow-up
`Info` read, not from the register response, which the code discards. -/
theorem C2_counterexample :
    c2ClientA.registerResult = c2ClientB.registerResult ∧
    (resourceVolumeRegister c2ClientA c2JsonOfText c2State).err = none ∧
    (resourceVolumeRegister c2ClientB c2JsonOfText c2State).err = none ∧
    (resourceVolumeRegister c2ClientA c2JsonOfText c2State).state
      ≠ (resourceVolumeRegister c2ClientB c2JsonOfText c2State).state := by
  exact ⟨rfl, by decide, by decide, by decide⟩

/-- C2 (amended): when the remote register call succeeds, its response (write
metadata) is discarded; the reconciler stores the parsed desired volume's id,
name, namespace and modify index, then immediately re-reads the volume, and
the `Info` response's record populates the stored observed state (with the
resource id kept from the parsed volume). -/
theorem C2_apply_stores_read_response
    (client : RemoteClient) (jsonOfText : String → RawText) (d : ResourceState)
    (volume readVolume : CSIVolume) (meta : WriteMeta)
    (hp : parseVolumespec (jsonOfText d.volumespec) d.json = (some volume, none))
    (hr : client.registerResult volume d.«namespace» = .ok meta)
    (hi : client.infoResult volume.ID
        (if volume.«Namespace» = "" then "default" else volume.«Namespace») = .ok readVolume) :
    resourceVolumeRegister client jsonOfText d =
      { state := { d with
          id := volume.ID
          attr_id := readVolume.ID
          name := readVolume.Name
          «namespace» := readVolume.«Namespace»
          modify_index := if readVolume.ModifyIndex ≠ 0 then toString readVolume.ModifyIndex
                          else "0"
          external_id := readVolume.ExternalID
          plugin_id := readVolume.PluginID
          access_mode := readVolume.AccessMode
          attachment_mode := readVolume.AttachmentMode
          mount_options := readVolume.MountOptions }
        err := none
        calls := [.register volume d.«namespace»,
                  .info volume.ID
                    (if volume.«Namespace» = "" then "default" else volume.«Namespace»)]
        nilDeref := false } := by
  simp [resourceVolumeRegister, hp, hr, resourceCSIVolumeRead, hi]

/-- Witness for C2 (amended) at a concrete client, state and volumespec. -/
theorem C2_witness :
    (resourceVolumeRegister c2ClientA c2JsonOfText c2State).err = none ∧
    (resourceVolumeRegister c2ClientA c2JsonOfText c2State).state.name = "from-read-a" ∧
    (resourceVolumeRegister c2ClientA c2JsonOfText c2State).state.id = "v1" := by
  have h := C2_apply_stores_read_response c2ClientA c2JsonOfText c2State
    { CSIVolume.empty with ID := "v1" }
    { CSIVolume.empty with ID := "v1", Name := "from-read-a" }
    { LastIndex := 7 } (by decide) rfl rfl
  rw [h]
  exact ⟨rfl, rfl, rfl⟩

/-- C5: a remote lookup failure whose error message is 404-class (contains
`"404"`, exactly the classification the code applies) makes `read` clear the
stored identity and return success; any other lookup failure returns a
wrapped error and leaves the state — identity included — unchanged. -/
theorem C5_read_not_found (client : RemoteClient) (d : ResourceState) (e : String)
    (he : client.infoResult d.id
        (if d.«namespace» = "" then "default" else d.«namespace») = .error e) :
    (strContains e "404" = true →
      resourceCSIVolumeRead client d
        = ({ d with id := "" }, none,
           [.info d.id (if d.«namespace» = "" then "default" else d.«namespace»)])) ∧
    (strContains e "404" = false →
      resourceCSIVolumeRead client d
        = (d, some ("error checking for job: " ++ e),
           [.info d.id (if d.«namespace» = "" then "default" else d.«namespace»)])) := by
  constructor <;> intro hc <;> simp [resourceCSIVolumeRead, he, hc]

/-- Client answering every lookup with a 404-class error. -/
def c5Client404 : RemoteClient :=
  { registerResult := fun _ _ => .ok { LastIndex := 0 }
    infoResult := fun _ _ => .error "Unexpected response code: 404 (volume not found)"
    deregisterResult := fun _ _ => none }

/-- Client answering every lookup with a 500-class error. -/
def c5Client500 : RemoteClient :=
  { registerResult := fun _ _ => .ok { LastIndex := 0 }
    infoResult := fun _ _ => .error "Unexpected response code: 500 (server error)"
    deregisterResult := fun _ _ => none }

/-- State with a stored identity, for the C5 witness. -/
def c5State : ResourceState :=
  { id := "vol1", attr_id := "vol1", name := "n", «namespace» := "", modify_index := "1"
    external_id := "", plugin_id := "p", access_mode := "", attachment_mode := ""
    mount_options := false, volumespec := "s", json := true, deregister_on_destroy := true }

/-- Witness for C5: a 404 lookup clears the identity and succeeds, a 500
lookup errors and leaves the state unchanged. -/
theorem C5_witness :
    resourceCSIVolumeRead c5Client404 c5State
      = ({ c5State with id := "" }, none,
         [.info c5State.id (if c5State.«namespace» = "" then "default"
                            else c5State.«namespace»)]) ∧
    resourceCSIVolumeRead c5Client500 c5State
      = (c5State,
         some ("error checking for job: " ++ "Unexpected response code: 500 (server error)"),
         [.info c5State.id (if c5State.«namespace» = "" then "default"
                            else c5State.«namespace»)]) := by
  exact ⟨(C5_read_not_found c5Client404 c5State _ rfl).1 (by decide),
         (C5_read_not_found c5Client500 c5State _ rfl).2 (by decide)⟩

/-- C7: with `deregister_on_destroy` false the deregister operation issues no
remote call and succeeds; with the flag true it issues exactly one remote
deregister call for the stored id, scoped to the namespace defaulted to
`"default"` when empty, succeeding when the remote succeeds and surfacing
(wrapped) any remote error. -/
theorem C7_deregister (client : RemoteClient) (d : ResourceState) :
    (d.deregister_on_destroy = false → resourceVolumeDeregister client d = (none, [])) ∧
    (d.deregister_on_destroy = true →
      (resourceVolumeDeregister client d).2
          = [.deregister d.id (if d.«namespace» = "" then "default" else d.«namespace»)] ∧
      (client.deregisterResult d.id
          (if d.«namespace» = "" then "default" else d.«namespace») = none →
        (resourceVolumeDeregister client d).1 = none) ∧
      (∀ e, client.deregisterResult d.id
          (if d.«namespace» = "" then "default" else d.«namespace») = some e →
        (resourceVolumeDeregister client d).1
          = some ("error deregistering job: " ++ e))) := by
  constructor
  · intro h
    simp [resourceVolumeDeregister, h]
  · intro h
    refine ⟨?_, ?_, ?_⟩
    · rcases hr : client.deregisterResult d.id
        (if d.«namespace» = "" then "default" else d.«namespace») with _ | e <;>
        simp [resourceVolumeDeregister, h, hr]
    · intro hr
      simp [resourceVolumeDeregister, h, hr]
    · intro e hr
      simp [resourceVolumeDeregister, h, hr]

/-- Client whose remote deregister always fails, for the C7 witness. -/
def c7ClientErr : RemoteClient :=
  { registerResult := fun _ _ => .ok { LastIndex := 0 }
    infoResult := fun _ _ => .error "unused"
    deregisterResult := fun _ _ => some "permission denied" }

/-- Client whose remote deregister always succeeds, for the C7 witness. -/
def c7ClientOk : RemoteClient :=
  { registerResult := fun _ _ => .ok { LastIndex := 0 }
    infoResult := fun _ _ => .error "unused"
    deregisterResult := fun _ _ => none }

/-- State with the destroy flag on and an empty namespace, for the C7
witness. -/
def c7StateOn : ResourceState :=
  { c5State with id := "vol7", deregister_on_destroy := true }

/-- State with the destroy flag off, for the C7 witness. -/
def c7StateOff : ResourceState :=
  { c7StateOn with deregister_on_destroy := false }

/-- Witness for C7: flag off is a remote-call-free success even against the
failing client; flag on issues the single defaulted-namespace call, surfaces
the failing client's error, and succeeds against the succeeding client. -/
theorem C7_witness :
    resourceVolumeDeregister c7ClientErr c7StateOff = (none, []) ∧
    (resourceVolumeDeregister c7ClientErr c7StateOn).2
      = [.deregister c7StateOn.id (if c7StateOn.«namespace» = "" then "default"
                                   else c7StateOn.«namespace»)] ∧
    (resourceVolumeDeregister c7ClientErr c7StateOn).1
      = some ("error deregistering job: " ++ "permission denied") ∧
    (resourceVolumeDeregister c7ClientOk c7StateOn).1 = none := by
  exact ⟨(C7_deregister c7ClientErr c7StateOff).1 rfl,
         ((C7_deregister c7ClientErr c7StateOn).2 rfl).1,
         ((C7_deregister c7ClientErr c7StateOn).2 rfl).2.2 "permission denied" rfl,
         ((C7_deregister c7ClientOk c7StateOn).2 rfl).2.1 rfl⟩

/-- C3: whenever the plan reaches the identity policy (volumespec known, raw
text changed, parse successful) and the observed namespace differs from the
desired namespace after defaulting an empty desired namespace to
`"default"`, the planner stages the new namespace and marks exactly the
namespace field as forcing replacement; in particular — the hypotheses say
nothing about the id, so this covers the case where the id differs too — the
id-change policy is not separately evaluated: neither `id` nor `name` is
forced. -/
theorem C3_namespace_change_forces_replacement
    (jsonOfText : String → RawText) (d : ResourceDiff) (volume : CSIVolume)
    (hknown : d.volumespecKnown = true)
    (hchanged : d.oldSpecRaw ≠ d.newSpecRaw)
    (hp : parseVolumespec (jsonOfText d.newSpecRaw) d.json = (some volume, none))
    (hns : d.«namespace» ≠ (if volume.«Namespace» = "" then "default" else volume.«Namespace»)) :
    resourceVolumeCustomizeDiff jsonOfText d =
      { computed := ["modify_index", "allocation_ids"]
        newValues := [("id", volume.ID), ("name", volume.Name),
                      ("namespace", if volume.«Namespace» = "" then "default"
                                    else volume.«Namespace»)]
        forced := ["namespace"]
        err := none } ∧
    "id" ∉ (resourceVolumeCustomizeDiff jsonOfText d).forced ∧
    "name" ∉ (resourceVolumeCustomizeDiff jsonOfText d).forced := by
  have hmain : resourceVolumeCustomizeDiff jsonOfText d =
      { computed := ["modify_index", "allocation_ids"]
        newValues := [("id", volume.ID), ("name", volume.Name),
                      ("namespace", if volume.«Namespace» = "" then "default"
                                    else volume.«Namespace»)]
        forced := ["namespace"]
        err := none } := by
    by_cases hv : volume.«Namespace» = ""
    · rw [if_pos hv] at hns
      simp [resourceVolumeCustomizeDiff, hknown, hchanged, hp, hv, hns]
    · rw [if_neg hv] at hns
      simp [resourceVolumeCustomizeDiff, hknown, hchanged, hp, hv, hns]
  refine ⟨hmain, ?_, ?_⟩ <;> rw [hmain] <;> simp

/-- Text-level JSON parse for the C3 witness: the new volumespec text denotes
a volume with id `vol-a` in namespace `ns2`. -/
def c3JsonOfText : String → RawText := fun t =>
  if t = "new" then some (.obj [("ID", .str "vol-a"), ("Namespace", .str "ns2")]) else none

/-- Observed diff state for the C3 witness: namespace `ns1`, id `vol-a`. -/
def c3Diff : ResourceDiff :=
  { volumespecKnown := true, oldSpecRaw := "old", newSpecRaw := "new", json := true
    «namespace» := "ns1", id := "vol-a", deregister_on_id_change := false }

/-- Witness for C3 at the spec scenario (observed `ns1`, desired `ns2`). -/
theorem C3_witness :
    resourceVolumeCustomizeDiff c3JsonOfText c3Diff =
      { computed := ["modify_index", "allocation_ids"]
        newValues := [("id", "vol-a"), ("name", ""), ("namespace", "ns2")]
        forced := ["namespace"]
        err := none } ∧
    "id" ∉ (resourceVolumeCustomizeDiff c3JsonOfText c3Diff).forced ∧
    "name" ∉ (resourceVolumeCustomizeDiff c3JsonOfText c3Diff).forced := by
  have h := C3_namespace_change_forces_replacement c3JsonOfText c3Diff
    { CSIVolume.empty with ID := "vol-a", «Namespace» := "ns2" }
    rfl (by decide) (by decide) (by decide)
  refine ⟨?_, h.2.1, h.2.2⟩
  rw [h.1]
  decide

/-- C6: when the plan reaches the identity policy, the namespace (after
defaulting) is unchanged and the id differs, the planner forces replacement
of exactly the `id` and `name` fields if `deregister_on_id_change` is set,
and forces nothing — allowing the in-place update — if it is unset. -/
theorem C6_id_change_policy
    (jsonOfText : String → RawText) (d : ResourceDiff) (volume : CSIVolume)
    (hknown : d.volumespecKnown = true)
    (hchanged : d.oldSpecRaw ≠ d.newSpecRaw)
    (hp : parseVolumespec (jsonOfText d.newSpecRaw) d.json = (some volume, none))
    (hns : d.«namespace» = (if volume.«Namespace» = "" then "default" else volume.«Namespace»))
    (hid : d.id ≠ volume.ID) :
    resourceVolumeCustomizeDiff jsonOfText d =
      { computed := ["modify_index", "allocation_ids"]
        newValues := [("id", volume.ID), ("name", volume.Name)]
        forced := if d.deregister_on_id_change then ["id", "name"] else []
        err := none } := by
  by_cases hv : volume.«Namespace» = ""
  · rw [if_pos hv] at hns
    cases hflag : d.deregister_on_id_change <;>
      simp [resourceVolumeCustomizeDiff, hknown, hchanged, hp, hv, hns, hid, hflag]
  · rw [if_neg hv] at hns
    cases hflag : d.deregister_on_id_change <;>
      simp [resourceVolumeCustomizeDiff, hknown, hchanged, hp, hv, hns, hid, hflag]

/-- Text-level JSON parse for the C6 witness: the new volumespec text denotes
a volume with id `vol-b` and empty namespace (defaulted to `"default"`). -/
def c6JsonOfText : String → RawText := fun t =>
  if t = "new" then some (.obj [("ID", .str "vol-b")]) else none

/-- Observed diff state for the C6 witness: id `vol-a`, namespace `default`,
replace-on-id-change flag unset. -/
def c6Diff : ResourceDiff :=
  { volumespecKnown := true, oldSpecRaw := "old", newSpecRaw := "new", json := true
    «namespace» := "default", id := "vol-a", deregister_on_id_change := false }

/-- Witness for C6 at the spec scenario (`vol-a` to `vol-b`, same namespace):
with the flag unset nothing is forced, with the flag set `id` and `name`
are forced. -/
theorem C6_witness :
    resourceVolumeCustomizeDiff c6JsonOfText c6Diff =
      { computed := ["modify_index", "allocation_ids"]
        newValues := [("id", "vol-b"), ("name", "")]
        forced := []
        err := none } ∧
    resourceVolumeCustomizeDiff c6JsonOfText { c6Diff with deregister_on_id_change := true } =
      { computed := ["modify_index", "allocation_ids"]
        newValues := [("id", "vol-b"), ("name", "")]
        forced := ["id", "name"]
        err := none } := by
  have h1 := C6_id_change_policy c6JsonOfText c6Diff
    { CSIVolume.empty with ID := "vol-b" } rfl (by decide) (by decide) (by decide) (by decide)
  have h2 := C6_id_change_policy c6JsonOfText { c6Diff with deregister_on_id_change := true }
    { CSIVolume.empty with ID := "vol-b" } rfl (by decide) (by decide) (by decide) (by decide)
  constructor
  · rw [h1]; decide
  · rw [h2]; decide

/-- C4: the poller's single-step transition function satisfies the specified
transition relation. While monitoring an evaluation whose fetch succeeds:
status `complete` with a non-empty next-eval id moves to monitoring that
evaluation; `complete` with no next eval but a non-empty deployment id moves
to monitoring that deployment; `complete` with neither reaches the terminal
state string `job_scheduled_without_deployment` with no error; `failed` or
`cancelled` yields a terminal error whose message is
`evaluation failed: <description>` (so it contains the status description);
any other status stays in `monitoring_evaluation`. While monitoring a
deployment whose fetch succeeds: `successful` is terminal success returning
the deployment record; `failed` or `cancelled` yields a terminal error whose
message spells out the deployment id, status and description; any other
status stays in `monitoring_deployment` with no error. -/
theorem C4_poller_transitions :
    (∀ (client : PollClient) (e : String) (ev : Evaluation),
        client.evalInfo e = .ok ev → ev.Status = "complete" → ev.NextEval ≠ "" →
        deploymentStateRefreshStep client (.monitoringEvaluation e)
          = { result := none, state := "monitoring_evaluation", err := none
              next := .monitoringEvaluation ev.NextEval }) ∧
    (∀ (client : PollClient) (e : String) (ev : Evaluation),
        client.evalInfo e = .ok ev → ev.Status = "complete" → ev.NextEval = "" →
        ev.DeploymentID ≠ "" →
        deploymentStateRefreshStep client (.monitoringEvaluation e)
          = { result := none, state := "monitoring_deployment", err := none
              next := .monitoringDeployment ev.DeploymentID }) ∧
    (∀ (client : PollClient) (e : String) (ev : Evaluation),
        client.evalInfo e = .ok ev → ev.Status = "complete" → ev.NextEval = "" →
        ev.DeploymentID = "" →
        deploymentStateRefreshStep client (.monitoringEvaluation e)
          = { result := none, state := "job_scheduled_without_deployment", err := none
              next := .monitoringEvaluation e }) ∧
    (∀ (client : PollClient) (e : String) (ev : Evaluation),
        client.evalInfo e = .ok ev → (ev.Status = "failed" ∨ ev.Status = "cancelled") →
        deploymentStateRefreshStep client (.monitoringEvaluation e)
          = { result := none, state := ""
              err := some ("evaluation failed: " ++ ev.StatusDescription)
              next := .monitoringEvaluation e }) ∧
    (∀ (client : PollClient) (e : String) (ev : Evaluation),
        client.evalInfo e = .ok ev → ev.Status ≠ "complete" → ev.Status ≠ "failed" →
        ev.Status ≠ "cancelled" →
        deploymentStateRefreshStep client (.monitoringEvaluation e)
          = { result := none, state := "monitoring_evaluation", err := none
              next := .monitoringEvaluation e }) ∧
    (∀ (client : PollClient) (dId : String) (dep : Deployment),
        client.depInfo dId = .ok dep → dep.Status = "successful" →
        deploymentStateRefreshStep client (.monitoringDeployment dId)
          = { result := some dep, state := "deployment_successful", err := none
              next := .monitoringDeployment dId }) ∧
    (∀ (client : PollClient) (dId : String) (dep : Deployment),
        client.depInfo dId = .ok dep → (dep.Status = "failed" ∨ dep.Status = "cancelled") →
        deploymentStateRefreshStep client (.monitoringDeployment dId)
          = { result := some dep, state := ""
              err := some ("deployment \x27" ++ dep.ID ++ "\x27 terminated with status \x27"
                           ++ dep.Status ++ "\x27: \x27" ++ dep.StatusDescription ++ "\x27")
              next := .monitoringDeployment dId }) ∧
    (∀ (client : PollClient) (dId : String) (dep : Deployment),
        client.depInfo dId = .ok dep → dep.Status ≠ "successful" → dep.Status ≠ "failed" →
        dep.Status ≠ "cancelled" →
        deploymentStateRefreshStep client (.monitoringDeployment dId)
          = { result := some dep, state := "monitoring_deployment", err := none
              next := .monitoringDeployment dId }) := by
  refine ⟨?_, ?_, ?_, ?_, ?_, ?_, ?_, ?_⟩
  · intro client e ev h hs hne
    simp [deploymentStateRefreshStep, h, hs, hne]
  · intro client e ev h hs hne hd
    simp [deploymentStateRefreshStep, h, hs, hne, hd]
  · intro client e ev h hs hne hd
    simp [deploymentStateRefreshStep, h, hs, hne, hd]
  · intro client e ev h hs
    rcases hs with hs | hs <;> simp [deploymentStateRefreshStep, h, hs]
  · intro client e ev h h1 h2 h3
    simp [deploymentStateRefreshStep, h, h1, h2, h3]
  · intro client dId dep h hs
    simp [deploymentStateRefreshStep, h, hs]
  · intro client dId dep h hs
    rcases hs with hs | hs <;> simp [deploymentStateRefreshStep, h, hs]
  · intro client dId dep h h1 h2 h3
    simp [deploymentStateRefreshStep, h, h1, h2, h3]

/-- Poll client for the C4 witness, with one evaluation or deployment per
transition case. -/
def c4Client : PollClient :=
  { evalInfo := fun e =>
      if e = "e1" then
        .ok { Status := "complete", NextEval := "e2", DeploymentID := "", StatusDescription := "" }
      else if e = "e2" then
        .ok { Status := "complete", NextEval := "", DeploymentID := "d1", StatusDescription := "" }
      else if e = "e3" then
        .ok { Status := "complete", NextEval := "", DeploymentID := "", StatusDescription := "" }
      else if e = "e4" then
        .ok { Status := "failed", NextEval := "", DeploymentID := "", StatusDescription := "boom" }
      else if e = "e5" then
        .ok { Status := "pending", NextEval := "", DeploymentID := "", StatusDescription := "" }
      else .error "no such evaluation"
    depInfo := fun dId =>
      if dId = "d1" then .ok { ID := "d1", Status := "successful", StatusDescription := "" }
      else if dId = "d2" then .ok { ID := "d2", Status := "failed", StatusDescription := "bad" }
      else if dId = "d3" then .ok { ID := "d3", Status := "running", StatusDescription := "" }
      else .error "no such deployment" }

/-- Witness for C4, exercising each of the eight transition cases at the
spec's own scenarios. -/
theorem C4_witness :
    deploymentStateRefreshStep c4Client (.monitoringEvaluation "e1")
      = { result := none, state := "monitoring_evaluation", err := none
          next := .monitoringEvaluation "e2" } ∧
    deploymentStateRefreshStep c4Client (.monitoringEvaluation "e2")
      = { result := none, state := "monitoring_deployment", err := none
          next := .monitoringDeployment "d1" } ∧
    deploymentStateRefreshStep c4Client (.monitoringEvaluation "e3")
      = { result := none, state := "job_scheduled_without_deployment", err := none
          next := .monitoringEvaluation "e3" } ∧
    deploymentStateRefreshStep c4Client (.monitoringEvaluation "e4")
      = { result := none, state := "", err := some ("evaluation failed: " ++ "boom")
          next := .monitoringEvaluation "e4" } ∧
    deploymentStateRefreshStep c4Client (.monitoringEvaluation "e5")
      = { result := none, state := "monitoring_evaluation", err := none
          next := .monitoringEvaluation "e5" } ∧
    deploymentStateRefreshStep c4Client (.monitoringDeployment "d1")
      = { result := some { ID := "d1", Status := "successful", StatusDescription := "" }
          state := "deployment_successful", err := none
          next := .monitoringDeployment "d1" } ∧
    deploymentStateRefreshStep c4Client (.monitoringDeployment "d2")
      = { result := some { ID := "d2", Status := "failed", StatusDescription := "bad" }
          state := ""
          err := some ("deployment \x27" ++ "d2" ++ "\x27 terminated with status \x27"
                       ++ "failed" ++ "\x27: \x27" ++ "bad" ++ "\x27")
          next := .monitoringDeployment "d2" } ∧
    deploymentStateRefreshStep c4Client (.monitoringDeployment "d3")
      = { result := some { ID := "d3", Status := "running", StatusDescription := "" }
          state := "monitoring_deployment", err := none
          next := .monitoringDeployment "d3" } := by
  exact ⟨C4_poller_transitions.1 c4Client "e1" _ rfl rfl (by decide),
    C4_poller_transitions.2.1 c4Client "e2" _ rfl rfl rfl (by decide),
    C4_poller_transitions.2.2.1 c4Client "e3" _ rfl rfl rfl rfl,
    C4_poller_transitions.2.2.2.1 c4Client "e4" _ rfl (Or.inl rfl),
    C4_poller_transitions.2.2.2.2.1 c4Client "e5" _ rfl (by decide) (by decide) (by decide),
    C4_poller_transitions.2.2.2.2.2.1 c4Client "d1" _ rfl rfl,
    C4_poller_transitions.2.2.2.2.2.2.1 c4Client "d2" _ rfl (Or.inl rfl),
    C4_poller_transitions.2.2.2.2.2.2.2 c4Client "d3" _ rfl (by decide) (by decide) (by decide)⟩

end NomadCSI
